import Mathlib

/-!
Shallow embedding of `src/windows/sombra_imp.rs` (crate `sombra-rs`).

The Rust file implements the `Sombra` trait for Windows: `build` canonicalizes
a target path into an immutable descriptor (`SombraWindows`), `create`
registers the descriptor with the Windows Service Control Manager (SCM) and
starts it through a helper executable, and `delete` stops (if needed) and
removes the registration.

The SCM, the filesystem and the process environment are external to the
crate, so they are modelled as explicit state:
  * `World.registry` — the SCM registry, a finite association list from
    service name to entry (registration record, description, current state);
  * `World.env` — the process environment variables;
  * `World.fs` — a canonicalization oracle: `fs p = some c` means
    `dunce::canonicalize(p)` succeeds and returns `c`, `none` means it fails;
  * `World.faults` — an injected list of external failures, one consumed per
    SCM round trip (`true` = that call fails spuriously), so that partial
    failure sequences can be expressed; an empty list means a fault-free run;
  * `World.trace` — every request issued to the SCM, in order, so that
    theorems can speak about which requests a call submitted and with what
    payload.

The bodies of `SombraWindows.build`, `SombraWindows.create` and
`SombraWindows.delete` below follow the Rust source statement by statement.
-/

/-- `crate::ErrorKind` (from the crate's error taxonomy): I/O errors,
platform/service-manager errors, configuration errors. -/
inductive ErrorKind where
  | Io
  | Platform
  | Config
deriving DecidableEq, Repr

/-- `crate::Error`: a kind, a human-readable message derived from the
underlying error, and optional context payload (`.content(...)`). -/
structure Error where
  kind : ErrorKind
  message : String
  content : Option String
deriving DecidableEq, Repr

/-- `crate::Result<T> = Result<T, crate::Error>`. -/
abbrev SResult (α : Type) := Except Error α

/-- `windows_service::service::ServiceState` (the constructors relevant to
this crate). -/
inductive ServiceState where
  | Stopped
  | StartPending
  | StopPending
  | Running
deriving DecidableEq, Repr

/-- `windows_service::service::ServiceType`. -/
inductive ServiceType where
  | OwnProcess
  | ShareProcess
deriving DecidableEq, Repr

/-- `windows_service::service::ServiceStartType`. -/
inductive ServiceStartType where
  | AutoStart
  | OnDemand
  | Disabled
deriving DecidableEq, Repr

/-- `windows_service::service::ServiceErrorControl`. -/
inductive ServiceErrorControl where
  | Ignore
  | Normal
  | Severe
  | Critical
deriving DecidableEq, Repr

/-- `windows_service::service_manager::ServiceManagerAccess` flags used by the
source. -/
inductive ServiceManagerAccess where
  | Connect
  | CreateService
deriving DecidableEq, Repr

/-- `windows_service::service::ServiceAccess` flags used by the source. -/
inductive ServiceAccess where
  | ChangeConfig
  | Start
  | QueryStatus
  | Stop
  | Delete
deriving DecidableEq, Repr

/-- `windows_service::service::ServiceInfo`: the registration record submitted
to the SCM by `create`. Paths and OS strings are modelled as `String`. -/
structure ServiceInfo where
  name : String
  display_name : String
  service_type : ServiceType
  start_type : ServiceStartType
  error_control : ServiceErrorControl
  executable_path : String
  launch_arguments : List String
  dependencies : List String
  account_name : Option String
  account_password : Option String
deriving DecidableEq, Repr

/-- One registry entry held by the SCM for a given service name: the
registration record, the optional description, and the current run state. -/
structure ScmEntry where
  info : ServiceInfo
  description : Option String
  state : ServiceState
deriving DecidableEq, Repr

/-- A request issued to the SCM (or the fixed sleep), recorded in order. -/
inductive ScmEvent where
  | connect (access : List ServiceManagerAccess)
  | createService (info : ServiceInfo) (access : List ServiceAccess)
  | setDescription (name : String) (text : String)
  | openService (name : String) (access : List ServiceAccess)
  | startService (name : String) (args : List String)
  | queryStatus (name : String)
  | stopService (name : String)
  | sleepMs (ms : Nat)
  | deleteService (name : String)
deriving DecidableEq, Repr

/-- The external state a call runs against: SCM registry, environment,
filesystem canonicalization oracle, injected external faults, request trace. -/
structure World where
  registry : List (String × ScmEntry)
  env : List (String × String)
  fs : String → Option String
  faults : List Bool
  trace : List ScmEvent

/-- Pop the next injected fault; an exhausted list means no fault. -/
def nextFault (w : World) : Bool × World :=
  match w.faults with
  | [] => (false, w)
  | b :: rest => (b, { w with faults := rest })

/-- Append one event to the request trace. -/
def addTrace (w : World) (e : ScmEvent) : World :=
  { w with trace := w.trace ++ [e] }

/-- Update every entry with the given name (at most one exists) in place. -/
def updateReg (r : List (String × ScmEntry)) (n : String)
    (f : ScmEntry → ScmEntry) : List (String × ScmEntry) :=
  r.map (fun p => if p.1 = n then (p.1, f p.2) else p)

/-- Remove the entry with the given name from the registry. -/
def removeReg (r : List (String × ScmEntry)) (n : String) :
    List (String × ScmEntry) :=
  r.filter (fun p => ¬ p.1 = n)

/-- First-match association-list lookup (used for the SCM registry and the
process environment). -/
def alookup {β : Type} (r : List (String × β)) (n : String) : Option β :=
  match r with
  | [] => none
  | (k, v) :: t => if k = n then some v else alookup t n

/-- A platform/service-manager error (`windows_service::Error` converted into
`crate::Error` by the crate's `From` impl used by the `?` operator). -/
def platformErr (msg : String) : Error :=
  { kind := ErrorKind.Platform, message := msg, content := none }

/-- The platform error returned by `CreateService` when the name is already
registered (surfaced verbatim). -/
def serviceExistsErr : Error :=
  platformErr "The specified service already exists."

/-- The platform error returned by `OpenService` when no entry with the given
name exists (surfaced verbatim). -/
def serviceDoesNotExistErr : Error :=
  platformErr "The specified service does not exist as an installed service."

/-- The I/O error produced by `sombra_error!(Io, path)` when
`dunce::canonicalize` fails: kind `Io`, the OS message, and the original
(uncanonicalized) path string as content. -/
def canonFailErr (path : String) : Error :=
  { kind := ErrorKind.Io
    message := "The system cannot find the path specified."
    content := some path }

/-- `dunce::canonicalize(path).map_err(sombra_error!(Io, path.to_string()))`:
succeeds with the canonical path iff the oracle resolves it, otherwise fails
with an I/O-kind error carrying the original path string. -/
def dunceCanonicalize (fs : String → Option String) (path : String) :
    SResult String :=
  match fs path with
  | some c => Except.ok c
  | none => Except.error (canonFailErr path)

/-- `ServiceManager::local_computer(None, access)`. -/
def scmConnect (access : List ServiceManagerAccess) (w : World) :
    SResult Unit × World :=
  let (f, w) := nextFault w
  let w := addTrace w (ScmEvent.connect access)
  if f then (Except.error (platformErr "connect failed"), w)
  else (Except.ok (), w)

/-- `service_manager.create_service(&info, access)`: fails spuriously on an
injected fault, fails with the verbatim platform error when an entry with
this name already exists, otherwise adds a stopped entry with no
description. -/
def scmCreateService (info : ServiceInfo) (access : List ServiceAccess)
    (w : World) : SResult Unit × World :=
  let (f, w) := nextFault w
  let w := addTrace w (ScmEvent.createService info access)
  if f then (Except.error (platformErr "create_service failed"), w)
  else if (alookup w.registry info.name).isSome then
    (Except.error serviceExistsErr, w)
  else
    (Except.ok (),
     { w with registry := w.registry ++
        [(info.name, { info := info, description := none
                       state := ServiceState.Stopped })] })

/-- `service.set_description(text)` on the handle for the named entry. -/
def scmSetDescription (n text : String) (w : World) : SResult Unit × World :=
  let (f, w) := nextFault w
  let w := addTrace w (ScmEvent.setDescription n text)
  if f then (Except.error (platformErr "set_description failed"), w)
  else if (alookup w.registry n).isSome then
    let r := updateReg w.registry n (fun e => { e with description := some text })
    (Except.ok (), { w with registry := r })
  else (Except.error (platformErr "set_description failed"), w)

/-- `service_manager.open_service(name, access)`: fails spuriously on a
fault, fails with the verbatim platform error when the entry does not
exist. -/
def scmOpenService (n : String) (access : List ServiceAccess) (w : World) :
    SResult Unit × World :=
  let (f, w) := nextFault w
  let w := addTrace w (ScmEvent.openService n access)
  if f then (Except.error (platformErr "open_service failed"), w)
  else if (alookup w.registry n).isSome then (Except.ok (), w)
  else (Except.error serviceDoesNotExistErr, w)

/-- `service.start(&args)`: starts the stopped entry, fails if it is not in
the stopped state or on an injected fault. -/
def scmStart (n : String) (args : List String) (w : World) :
    SResult Unit × World :=
  let (f, w) := nextFault w
  let w := addTrace w (ScmEvent.startService n args)
  if f then (Except.error (platformErr "start failed"), w)
  else
    match alookup w.registry n with
    | some e =>
      if e.state = ServiceState.Stopped then
        let r := updateReg w.registry n (fun e => { e with state := ServiceState.Running })
        (Except.ok (), { w with registry := r })
      else (Except.error (platformErr "service already running"), w)
    | none => (Except.error serviceDoesNotExistErr, w)

/-- `service.query_status()`: returns the entry's current state. -/
def scmQueryStatus (n : String) (w : World) : SResult ServiceState × World :=
  let (f, w) := nextFault w
  let w := addTrace w (ScmEvent.queryStatus n)
  if f then (Except.error (platformErr "query_status failed"), w)
  else
    match alookup w.registry n with
    | some e => (Except.ok e.state, w)
    | none => (Except.error serviceDoesNotExistErr, w)

/-- `service.stop()`: issues a stop request; the platform acknowledges the
request and moves the entry to `StopPending` (stop is asynchronous; the
state need not have reached `Stopped` when the call returns). -/
def scmStop (n : String) (w : World) : SResult Unit × World :=
  let (f, w) := nextFault w
  let w := addTrace w (ScmEvent.stopService n)
  if f then (Except.error (platformErr "stop failed"), w)
  else
    match alookup w.registry n with
    | some e =>
      if e.state = ServiceState.Stopped then
        (Except.error (platformErr "service not active"), w)
      else
        let r := updateReg w.registry n (fun e => { e with state := ServiceState.StopPending })
        (Except.ok (), { w with registry := r })
    | none => (Except.error serviceDoesNotExistErr, w)

/-- `std::thread::sleep(Duration::from_millis(ms))`: a fixed blocking pause,
recorded in the trace; no SCM round trip and no fault is consumed. -/
def sleepMs (ms : Nat) (w : World) : World :=
  addTrace w (ScmEvent.sleepMs ms)

/-- `service.delete()`: marks the named entry for removal (modelled as
immediate removal, since every call path drops its handles on return). -/
def scmDelete (n : String) (w : World) : SResult Unit × World :=
  let (f, w) := nextFault w
  let w := addTrace w (ScmEvent.deleteService n)
  if f then (Except.error (platformErr "delete failed"), w)
  else
    match alookup w.registry n with
    | some _ => (Except.ok (), { w with registry := removeReg w.registry n })
    | none => (Except.error serviceDoesNotExistErr, w)

/-- `std::env::var(k)`: `Ok` with the value when set, `Err(VarError)`
(converted to a configuration error by `?`) when unset. -/
def envVar (w : World) (k : String) : SResult String :=
  match alookup w.env k with
  | some v => Except.ok v
  | none =>
    Except.error { kind := ErrorKind.Config
                   message := "environment variable not found"
                   content := none }

/-- `std::env::set_var(k, v)`: process-wide mutation of the environment. -/
def envSetVar (w : World) (k v : String) : World :=
  { w with env := (k, v) :: w.env.filter (fun p => ¬ p.1 = k) }

/-- `pub struct SombraWindows`: the immutable descriptor. -/
structure SombraWindows where
  process_path : String
  process_name : String
  process_args : List String
deriving DecidableEq, Repr

/-- `SombraWindows::build(name, path, args)`: canonicalize `path` (failing
with an I/O error that carries the original path string), then store the
canonical path, the name and the arguments verbatim. -/
def SombraWindows.build (fs : String → Option String) (name path : String)
    (args : List String) : SResult SombraWindows :=
  match dunceCanonicalize fs path with
  | Except.error e => Except.error e
  | Except.ok p =>
    Except.ok { process_path := p, process_name := name, process_args := args }

/-- The registration record `create` builds for a descriptor, given the
canonicalized helper location. -/
def serviceInfoFor (s : SombraWindows) (service_binary_path : String) :
    ServiceInfo :=
  { name := s.process_name
    display_name := s.process_name
    service_type := ServiceType.OwnProcess
    start_type := ServiceStartType.OnDemand
    error_control := ServiceErrorControl.Normal
    executable_path := service_binary_path
    launch_arguments := []
    dependencies := []
    account_name := none  -- run as System
    account_password := none }

/-- The second half of `SombraWindows::create`, from the registration request
on (`create_service`, `set_description`, `open_service`, `start`), given the
already-canonicalized helper location `service_binary_path`. -/
def createRegisterAndStart (s : SombraWindows) (service_binary_path : String)
    (w : World) : SResult Unit × World :=
  match scmCreateService (serviceInfoFor s service_binary_path)
          [ServiceAccess.ChangeConfig] w with
  | (Except.error e, w) => (Except.error e, w)
  | (Except.ok _, w) =>
    match scmSetDescription s.process_name
            ("Sombra Service Wrapper on " ++ s.process_name) w with
    | (Except.error e, w) => (Except.error e, w)
    | (Except.ok _, w) =>
      match scmOpenService s.process_name [ServiceAccess.Start] w with
      | (Except.error e, w) => (Except.error e, w)
      | (Except.ok _, w) =>
        scmStart s.process_name (s.process_path :: s.process_args) w

/-- `SombraWindows::create`: connect with `CONNECT | CREATE_SERVICE`; set the
helper-path environment variable to the fixed default iff it is unset; read
it back; canonicalize it; submit the registration record; set the
description; re-open with `START`; start with the canonicalized target path
followed by the descriptor's arguments. -/
def SombraWindows.create (s : SombraWindows) (w : World) :
    SResult Unit × World :=
  match scmConnect [ServiceManagerAccess.Connect,
                    ServiceManagerAccess.CreateService] w with
  | (Except.error e, w) => (Except.error e, w)
  | (Except.ok _, w) =>
    let w :=
      match envVar w "SOMBRA_WINDOWS_SERVICE_PATH" with
      | Except.error _ =>
        envSetVar w "SOMBRA_WINDOWS_SERVICE_PATH"
          "executables/sombra-windows-service.exe"
      | Except.ok _ => w
    match envVar w "SOMBRA_WINDOWS_SERVICE_PATH" with
    | Except.error e => (Except.error e, w)
    | Except.ok sombra_win_service =>
      match dunceCanonicalize w.fs sombra_win_service with
      | Except.error e => (Except.error e, w)
      | Except.ok service_binary_path =>
        createRegisterAndStart s service_binary_path w

/-- `SombraWindows::delete`: connect with `CONNECT`; open the named entry with
`QUERY_STATUS | STOP | DELETE`; query the status; if not `Stopped`, stop and
sleep 100 ms; then delete the entry. -/
def SombraWindows.delete (s : SombraWindows) (w : World) :
    SResult Unit × World :=
  match scmConnect [ServiceManagerAccess.Connect] w with
  | (Except.error e, w) => (Except.error e, w)
  | (Except.ok _, w) =>
    match scmOpenService s.process_name
            [ServiceAccess.QueryStatus, ServiceAccess.Stop,
             ServiceAccess.Delete] w with
    | (Except.error e, w) => (Except.error e, w)
    | (Except.ok _, w) =>
      match scmQueryStatus s.process_name w with
      | (Except.error e, w) => (Except.error e, w)
      | (Except.ok service_status, w) =>
        if service_status ≠ ServiceState.Stopped then
          match scmStop s.process_name w with
          | (Except.error e, w) => (Except.error e, w)
          | (Except.ok _, w) =>
            let w := sleepMs 100 w
            scmDelete s.process_name w
        else
          scmDelete s.process_name w

/-! ## Derived descriptions of the worlds `create` and `delete` produce -/

/-- The helper-executable location `create` resolves: the value of the
`SOMBRA_WINDOWS_SERVICE_PATH` environment variable, or the fixed relative
default when it is unset. -/
def helperPath (w : World) : String :=
  match alookup w.env "SOMBRA_WINDOWS_SERVICE_PATH" with
  | some v => v
  | none => "executables/sombra-windows-service.exe"

/-- The environment after `create` has passed its environment step: unchanged
when the override is already set, otherwise with the fixed default added. -/
def envAfterCreate (w : World) : List (String × String) :=
  match alookup w.env "SOMBRA_WINDOWS_SERVICE_PATH" with
  | some _ => w.env
  | none => (envSetVar w "SOMBRA_WINDOWS_SERVICE_PATH"
               "executables/sombra-windows-service.exe").env

/-- The registry entry a fault-free successful `create` leaves behind for the
descriptor, given the canonicalized helper location `c`. -/
def createdEntry (s : SombraWindows) (c : String) : ScmEntry :=
  { info := serviceInfoFor s c
    description := some ("Sombra Service Wrapper on " ++ s.process_name)
    state := ServiceState.Running }

/-- The requests a fault-free successful `create` issues, in order. -/
def createTrace (s : SombraWindows) (c : String) : List ScmEvent :=
  [ScmEvent.connect [ServiceManagerAccess.Connect,
                     ServiceManagerAccess.CreateService],
   ScmEvent.createService (serviceInfoFor s c) [ServiceAccess.ChangeConfig],
   ScmEvent.setDescription s.process_name
     ("Sombra Service Wrapper on " ++ s.process_name),
   ScmEvent.openService s.process_name [ServiceAccess.Start],
   ScmEvent.startService s.process_name (s.process_path :: s.process_args)]

/-- The world a fault-free successful `create` produces. -/
def createdWorld (s : SombraWindows) (w : World) (c : String) : World :=
  { registry := w.registry ++ [(s.process_name, createdEntry s c)]
    env := envAfterCreate w
    fs := w.fs
    faults := []
    trace := w.trace ++ createTrace s c }


/-! ## Registry and environment lemmas -/

theorem alookup_append {β : Type} (r₁ r₂ : List (String × β)) (n : String) :
    alookup (r₁ ++ r₂) n = (alookup r₁ n).or (alookup r₂ n) := by
  induction r₁ with
  | nil => simp [alookup]
  | cons p t ih =>
    rcases p with ⟨k, v⟩
    by_cases hk : k = n <;> simp [alookup, hk, ih]

theorem alookup_append_singleton {β : Type} (r : List (String × β))
    (n : String) (e : β) (h : alookup r n = none) :
    alookup (r ++ [(n, e)]) n = some e := by
  rw [alookup_append, h]
  simp [alookup]

theorem alookup_cons {β : Type} (k : String) (v : β) (t : List (String × β))
    (n : String) :
    alookup ((k, v) :: t) n = if k = n then some v else alookup t n := rfl

theorem updateReg_cons (k : String) (v : ScmEntry)
    (t : List (String × ScmEntry)) (n : String) (f : ScmEntry → ScmEntry) :
    updateReg ((k, v) :: t) n f =
      (if k = n then (k, f v) else (k, v)) :: updateReg t n f := by
  simp only [updateReg, List.map_cons]

theorem removeReg_cons (k : String) (v : ScmEntry)
    (t : List (String × ScmEntry)) (n : String) :
    removeReg ((k, v) :: t) n =
      if k = n then removeReg t n else (k, v) :: removeReg t n := by
  simp only [removeReg, List.filter_cons]
  by_cases hk : k = n <;> simp [hk]

theorem alookup_updateReg_self (r : List (String × ScmEntry)) (n : String)
    (f : ScmEntry → ScmEntry) :
    alookup (updateReg r n f) n = (alookup r n).map f := by
  induction r with
  | nil => rfl
  | cons p t ih =>
    rcases p with ⟨k, v⟩
    rw [updateReg_cons]
    by_cases hk : k = n
    · rw [if_pos hk, alookup_cons, alookup_cons, if_pos hk, if_pos hk]
      simp
    · rw [if_neg hk, alookup_cons, alookup_cons, if_neg hk, if_neg hk, ih]

theorem updateReg_of_alookup_none (r : List (String × ScmEntry)) (n : String)
    (f : ScmEntry → ScmEntry) (h : alookup r n = none) :
    updateReg r n f = r := by
  induction r with
  | nil => rfl
  | cons p t ih =>
    rcases p with ⟨k, v⟩
    by_cases hk : k = n
    · simp [alookup, hk] at h
    · simp only [alookup, if_neg hk] at h
      simp only [updateReg, List.map_cons, if_neg hk]
      simpa [updateReg] using ih h

theorem removeReg_of_alookup_none (r : List (String × ScmEntry)) (n : String)
    (h : alookup r n = none) : removeReg r n = r := by
  induction r with
  | nil => rfl
  | cons p t ih =>
    rcases p with ⟨k, v⟩
    by_cases hk : k = n
    · simp [alookup, hk] at h
    · simp only [alookup, if_neg hk] at h
      simp only [removeReg, List.filter_cons, decide_not, hk, decide_False,
        Bool.not_false, if_pos]
      simpa [removeReg] using ih h

theorem removeReg_append (r₁ r₂ : List (String × ScmEntry)) (n : String) :
    removeReg (r₁ ++ r₂) n = removeReg r₁ n ++ removeReg r₂ n := by
  simp [removeReg]

theorem removeReg_updateReg (r : List (String × ScmEntry)) (n : String)
    (f : ScmEntry → ScmEntry) :
    removeReg (updateReg r n f) n = removeReg r n := by
  induction r with
  | nil => rfl
  | cons p t ih =>
    rcases p with ⟨k, v⟩
    rw [updateReg_cons]
    by_cases hk : k = n
    · rw [if_pos hk, removeReg_cons, removeReg_cons, if_pos hk, if_pos hk, ih]
    · rw [if_neg hk, removeReg_cons, removeReg_cons, if_neg hk, if_neg hk, ih]

theorem alookup_removeReg_self (r : List (String × ScmEntry)) (n : String) :
    alookup (removeReg r n) n = none := by
  induction r with
  | nil => rfl
  | cons p t ih =>
    rcases p with ⟨k, v⟩
    by_cases hk : k = n
    · simpa [removeReg, List.filter_cons, hk] using ih
    · simp only [removeReg, List.filter_cons, decide_not, hk, decide_False,
        Bool.not_false, if_pos]
      simpa [alookup, removeReg, hk] using ih

theorem updateReg_nil (n : String) (f : ScmEntry → ScmEntry) :
    updateReg [] n f = [] := rfl

theorem updateReg_append (r₁ r₂ : List (String × ScmEntry)) (n : String)
    (f : ScmEntry → ScmEntry) :
    updateReg (r₁ ++ r₂) n f = updateReg r₁ n f ++ updateReg r₂ n f := by
  simp [updateReg]

/-! ## Characterization of `create` and `delete` runs -/

/-- A fault-free `create` on an unregistered name with a resolvable helper
location succeeds and produces exactly `createdWorld`. -/
theorem create_ok_eq (s : SombraWindows) (w : World) (c : String)
    (hf : w.faults = [])
    (hfree : alookup w.registry s.process_name = none)
    (hc : w.fs (helperPath w) = some c) :
    s.create w = (Except.ok (), createdWorld s w c) := by
  obtain ⟨reg, env, fs, faults, tr⟩ := w
  simp only at hf hfree
  subst hf
  simp only [helperPath] at hc
  cases henv : alookup env "SOMBRA_WINDOWS_SERVICE_PATH" with
  | some v =>
    simp only [henv] at hc
    simp [SombraWindows.create, createRegisterAndStart, scmConnect, nextFault,
      addTrace, envVar, envSetVar, dunceCanonicalize, scmCreateService,
      scmSetDescription, scmOpenService, scmStart, serviceInfoFor,
      createdWorld, createdEntry, createTrace, envAfterCreate, henv, hc,
      hfree, alookup_append_singleton, alookup_updateReg_self,
      updateReg_append, updateReg_of_alookup_none, updateReg_cons,
      updateReg_nil, alookup_cons]
  | none =>
    simp only [henv] at hc
    simp [SombraWindows.create, createRegisterAndStart, scmConnect, nextFault,
      addTrace, envVar, envSetVar, dunceCanonicalize, scmCreateService,
      scmSetDescription, scmOpenService, scmStart, serviceInfoFor,
      createdWorld, createdEntry, createTrace, envAfterCreate, henv, hc,
      hfree, alookup_append_singleton, alookup_updateReg_self,
      updateReg_append, updateReg_of_alookup_none, updateReg_cons,
      updateReg_nil, alookup_cons]

/-- A fault-free `create` whose helper location does not canonicalize fails
with the I/O error carrying the helper path, after the connect request only:
the registry is untouched and no registration request is submitted. -/
theorem create_canonfail_eq (s : SombraWindows) (w : World)
    (hf : w.faults = [])
    (hc : w.fs (helperPath w) = none) :
    s.create w = (Except.error (canonFailErr (helperPath w)),
      { registry := w.registry, env := envAfterCreate w, fs := w.fs
        faults := []
        trace := w.trace ++ [ScmEvent.connect [ServiceManagerAccess.Connect,
          ServiceManagerAccess.CreateService]] }) := by
  obtain ⟨reg, env, fs, faults, tr⟩ := w
  simp only at hf
  subst hf
  simp only [helperPath] at hc ⊢
  cases henv : alookup env "SOMBRA_WINDOWS_SERVICE_PATH" with
  | some v =>
    simp only [henv] at hc
    simp [SombraWindows.create, scmConnect, nextFault, addTrace, envVar,
      envSetVar, dunceCanonicalize, envAfterCreate, henv, hc]
  | none =>
    simp only [henv] at hc
    simp [SombraWindows.create, scmConnect, nextFault, addTrace, envVar,
      envSetVar, dunceCanonicalize, envAfterCreate, henv, hc, alookup_cons]

/-- A fault-free `create` against an already-registered name fails with the
verbatim platform "service exists" error right at the registration request:
the registry is untouched (the existing entry is not overwritten) and no
description or start request is issued. -/
theorem create_exists_eq (s : SombraWindows) (w : World) (c : String)
    (e : ScmEntry)
    (hf : w.faults = [])
    (hc : w.fs (helperPath w) = some c)
    (hsome : alookup w.registry s.process_name = some e) :
    s.create w = (Except.error serviceExistsErr,
      { registry := w.registry, env := envAfterCreate w, fs := w.fs
        faults := []
        trace := w.trace ++ [ScmEvent.connect [ServiceManagerAccess.Connect,
          ServiceManagerAccess.CreateService],
          ScmEvent.createService (serviceInfoFor s c)
            [ServiceAccess.ChangeConfig]] }) := by
  obtain ⟨reg, env, fs, faults, tr⟩ := w
  simp only at hf hsome
  subst hf
  simp only [helperPath] at hc ⊢
  cases henv : alookup env "SOMBRA_WINDOWS_SERVICE_PATH" with
  | some v =>
    simp only [henv] at hc
    simp [SombraWindows.create, createRegisterAndStart, scmConnect,
      nextFault, addTrace, envVar, envSetVar, dunceCanonicalize,
      scmCreateService, envAfterCreate, serviceInfoFor, henv, hc, hsome]
  | none =>
    simp only [henv] at hc
    simp [SombraWindows.create, createRegisterAndStart, scmConnect,
      nextFault, addTrace, envVar, envSetVar, dunceCanonicalize,
      scmCreateService, envAfterCreate, serviceInfoFor, henv, hc, hsome,
      alookup_cons]

/-- A fault-free `delete` on a name with no registered entry fails with the
verbatim platform "does not exist" error at the open request; no stop and no
delete request is issued and the registry is untouched. -/
theorem delete_none_eq (s : SombraWindows) (w : World)
    (hf : w.faults = [])
    (hnone : alookup w.registry s.process_name = none) :
    s.delete w = (Except.error serviceDoesNotExistErr,
      { registry := w.registry, env := w.env, fs := w.fs
        faults := []
        trace := w.trace ++ [ScmEvent.connect [ServiceManagerAccess.Connect],
          ScmEvent.openService s.process_name [ServiceAccess.QueryStatus,
            ServiceAccess.Stop, ServiceAccess.Delete]] }) := by
  obtain ⟨reg, env, fs, faults, tr⟩ := w
  simp only at hf hnone
  subst hf
  simp [SombraWindows.delete, scmConnect, scmOpenService, nextFault, addTrace,
    hnone]

/-- A fault-free `delete` on an entry already in the `Stopped` state issues
no stop request and no sleep: connect, open, query, then delete, removing the
entry. -/
theorem delete_stopped_eq (s : SombraWindows) (w : World) (e : ScmEntry)
    (hf : w.faults = [])
    (hsome : alookup w.registry s.process_name = some e)
    (hstate : e.state = ServiceState.Stopped) :
    s.delete w = (Except.ok (),
      { registry := removeReg w.registry s.process_name
        env := w.env, fs := w.fs, faults := []
        trace := w.trace ++ [ScmEvent.connect [ServiceManagerAccess.Connect],
          ScmEvent.openService s.process_name [ServiceAccess.QueryStatus,
            ServiceAccess.Stop, ServiceAccess.Delete],
          ScmEvent.queryStatus s.process_name,
          ScmEvent.deleteService s.process_name] }) := by
  obtain ⟨reg, env, fs, faults, tr⟩ := w
  simp only at hf hsome
  subst hf
  simp [SombraWindows.delete, scmConnect, scmOpenService, scmQueryStatus,
    scmDelete, nextFault, addTrace, hsome, hstate]

/-- A fault-free `delete` on an entry that is not `Stopped` issues a stop
request, then the fixed 100 ms sleep, then the delete request, removing the
entry. -/
theorem delete_notstopped_eq (s : SombraWindows) (w : World) (e : ScmEntry)
    (hf : w.faults = [])
    (hsome : alookup w.registry s.process_name = some e)
    (hstate : e.state ≠ ServiceState.Stopped) :
    s.delete w = (Except.ok (),
      { registry := removeReg w.registry s.process_name
        env := w.env, fs := w.fs, faults := []
        trace := w.trace ++ [ScmEvent.connect [ServiceManagerAccess.Connect],
          ScmEvent.openService s.process_name [ServiceAccess.QueryStatus,
            ServiceAccess.Stop, ServiceAccess.Delete],
          ScmEvent.queryStatus s.process_name,
          ScmEvent.stopService s.process_name,
          ScmEvent.sleepMs 100,
          ScmEvent.deleteService s.process_name] }) := by
  obtain ⟨reg, env, fs, faults, tr⟩ := w
  simp only at hf hsome
  subst hf
  simp [SombraWindows.delete, scmConnect, scmOpenService, scmQueryStatus,
    scmStop, sleepMs, scmDelete, nextFault, addTrace, hsome, hstate,
    alookup_updateReg_self, removeReg_updateReg]

/-- Inversion: the only way a fault-free `create` succeeds is that the helper
location canonicalizes, the name is unregistered, and the result is exactly
`createdWorld`. -/
theorem create_ok_inv (s : SombraWindows) (w w1 : World)
    (hf : w.faults = [])
    (h : s.create w = (Except.ok (), w1)) :
    ∃ c, w.fs (helperPath w) = some c ∧
      alookup w.registry s.process_name = none ∧
      w1 = createdWorld s w c := by
  cases hc : w.fs (helperPath w) with
  | none =>
    rw [create_canonfail_eq s w hf hc] at h
    simp at h
  | some c =>
    cases hfree : alookup w.registry s.process_name with
    | some e =>
      rw [create_exists_eq s w c e hf hc hfree] at h
      simp [serviceExistsErr, platformErr] at h
    | none =>
      rw [create_ok_eq s w c hf hfree hc] at h
      exact ⟨c, rfl, rfl, (congrArg Prod.snd h).symm⟩

/-- After `create`'s environment step the override is always set, and its
value is the helper path resolved from the pre-call environment. -/
theorem alookup_envAfterCreate (w : World) :
    alookup (envAfterCreate w) "SOMBRA_WINDOWS_SERVICE_PATH" =
      some (helperPath w) := by
  unfold envAfterCreate helperPath
  cases h : alookup w.env "SOMBRA_WINDOWS_SERVICE_PATH" with
  | some v => simp [h]
  | none => simp [h, envSetVar, alookup_cons]

/-- The helper path resolved after a successful `create` is the same as
before it. -/
theorem helperPath_createdWorld (s : SombraWindows) (w : World) (c : String) :
    helperPath (createdWorld s w c) = helperPath w := by
  show (match alookup (envAfterCreate w) "SOMBRA_WINDOWS_SERVICE_PATH" with
        | some v => v
        | none => "executables/sombra-windows-service.exe") = helperPath w
  rw [alookup_envAfterCreate]

/-- Like `create_canonfail_eq`, but for a run whose first (connect) round
trip succeeds and whose remaining fault budget is arbitrary: the failure
happens before any further SCM request, so no later fault is consumed. -/
theorem create_canonfail_cons_eq (s : SombraWindows) (w : World)
    (rest : List Bool)
    (hfl : w.faults = false :: rest)
    (hc : w.fs (helperPath w) = none) :
    s.create w = (Except.error (canonFailErr (helperPath w)),
      { registry := w.registry, env := envAfterCreate w, fs := w.fs
        faults := rest
        trace := w.trace ++ [ScmEvent.connect [ServiceManagerAccess.Connect,
          ServiceManagerAccess.CreateService]] }) := by
  obtain ⟨reg, env, fs, faults, tr⟩ := w
  simp only at hfl
  subst hfl
  simp only [helperPath] at hc ⊢
  cases henv : alookup env "SOMBRA_WINDOWS_SERVICE_PATH" with
  | some v =>
    simp only [henv] at hc
    simp [SombraWindows.create, scmConnect, nextFault, addTrace, envVar,
      envSetVar, dunceCanonicalize, envAfterCreate, henv, hc]
  | none =>
    simp only [henv] at hc
    simp [SombraWindows.create, scmConnect, nextFault, addTrace, envVar,
      envSetVar, dunceCanonicalize, envAfterCreate, henv, hc, alookup_cons]

theorem env_scmCreateService (i : ServiceInfo) (a : List ServiceAccess)
    (w : World) : (scmCreateService i a w).2.env = w.env := by
  unfold scmCreateService nextFault addTrace
  cases w.faults <;> dsimp <;> split <;> first | rfl | (split <;> rfl)

theorem env_scmSetDescription (n text : String) (w : World) :
    (scmSetDescription n text w).2.env = w.env := by
  unfold scmSetDescription nextFault addTrace
  cases w.faults <;> dsimp <;> split <;> first | rfl | (split <;> rfl)

theorem env_scmOpenService (n : String) (a : List ServiceAccess) (w : World) :
    (scmOpenService n a w).2.env = w.env := by
  unfold scmOpenService nextFault addTrace
  cases w.faults <;> dsimp <;> split <;> first | rfl | (split <;> rfl)

theorem env_scmStart (n : String) (args : List String) (w : World) :
    (scmStart n args w).2.env = w.env := by
  unfold scmStart nextFault addTrace
  cases w.faults <;> dsimp <;> split <;>
    first
    | rfl
    | (split <;> first | rfl | (split <;> rfl))


theorem env_createRegisterAndStart (s : SombraWindows) (c : String)
    (w : World) : (createRegisterAndStart s c w).2.env = w.env := by
  unfold createRegisterAndStart
  rcases h1 : scmCreateService (serviceInfoFor s c)
      [ServiceAccess.ChangeConfig] w with ⟨r1, w1⟩
  have e1 : w1.env = w.env := by
    have h := env_scmCreateService (serviceInfoFor s c)
      [ServiceAccess.ChangeConfig] w
    rw [h1] at h
    exact h
  cases r1 with
  | error e => exact e1
  | ok u =>
    rcases h2 : scmSetDescription s.process_name
        ("Sombra Service Wrapper on " ++ s.process_name) w1 with ⟨r2, w2⟩
    have e2 : w2.env = w1.env := by
      have h := env_scmSetDescription s.process_name
        ("Sombra Service Wrapper on " ++ s.process_name) w1
      rw [h2] at h
      exact h
    simp only [h2]
    cases r2 with
    | error e => exact e2.trans e1
    | ok u2 =>
      rcases h3 : scmOpenService s.process_name [ServiceAccess.Start] w2
          with ⟨r3, w3⟩
      have e3 : w3.env = w2.env := by
        have h := env_scmOpenService s.process_name [ServiceAccess.Start] w2
        rw [h3] at h
        exact h
      simp only [h3]
      cases r3 with
      | error e => exact e3.trans (e2.trans e1)
      | ok u3 =>
        have e4 := env_scmStart s.process_name
          (s.process_path :: s.process_args) w3
        exact e4.trans (e3.trans (e2.trans e1))

/-- Once the connect round trip has succeeded, the environment `create`
leaves behind is exactly `envAfterCreate`, whatever happens afterwards: the
override is written at most once, before any fallible later step. -/
theorem create_env_eq (s : SombraWindows) (w : World) (rest : List Bool)
    (hfl : w.faults = false :: rest) :
    (s.create w).2.env = envAfterCreate w := by
  obtain ⟨reg, env, fs, faults, tr⟩ := w
  simp only at hfl
  subst hfl
  cases henv : alookup env "SOMBRA_WINDOWS_SERVICE_PATH" with
  | some v =>
    cases hdc : fs v with
    | none =>
      simp [SombraWindows.create, scmConnect, nextFault, addTrace, envVar,
        envSetVar, dunceCanonicalize, envAfterCreate, henv, hdc]
    | some c =>
      simp [SombraWindows.create, scmConnect, nextFault, addTrace, envVar,
        envSetVar, dunceCanonicalize, envAfterCreate, henv, hdc,
        env_createRegisterAndStart]
  | none =>
    cases hdc : fs "executables/sombra-windows-service.exe" with
    | none =>
      simp [SombraWindows.create, scmConnect, nextFault, addTrace, envVar,
        envSetVar, dunceCanonicalize, envAfterCreate, henv, hdc, alookup_cons]
    | some c =>
      simp [SombraWindows.create, scmConnect, nextFault, addTrace, envVar,
        envSetVar, dunceCanonicalize, envAfterCreate, henv, hdc, alookup_cons,
        env_createRegisterAndStart]

/-! ## Concrete worlds and descriptors for witnesses -/

/-- Canonicalization oracle for concrete runs: the default helper location
and one target executable resolve, everything else fails. -/
def fsA : String → Option String := fun p =>
  if p = "executables/sombra-windows-service.exe" then
    some "C:/sombra/executables/sombra-windows-service.exe"
  else if p = "C:/apps/echo.exe" then some "C:/apps/echo.exe"
  else none

/-- An initial world: empty registry, empty environment, fault-free. -/
def w0 : World :=
  { registry := [], env := [], fs := fsA, faults := [], trace := [] }

/-- A concrete descriptor, as `build` would produce it for the test echo
server. -/
def descA : SombraWindows :=
  { process_path := "C:/apps/echo.exe", process_name := "tcp_echo"
    process_args := ["-p", "30222"] }

/-- A second descriptor with the same name but different arguments. -/
def descB : SombraWindows :=
  { process_path := "C:/apps/echo.exe", process_name := "tcp_echo"
    process_args := ["-p", "30223"] }

/-- The world left by a successful `descA.create w0`. -/
def w1c : World :=
  createdWorld descA w0 "C:/sombra/executables/sombra-windows-service.exe"

/-! ## The claims -/

/-- C1: For every valid descriptor `D` whose name is not currently registered
with the platform service manager, `create(D)` followed by `delete(D)` both
succeed (in a fault-free run whose helper location resolves), and afterwards
no registration entry named `D.name` exists in the platform registry. -/
theorem C1_create_delete_roundtrip (s : SombraWindows) (w : World) (c : String)
    (hf : w.faults = [])
    (hfree : alookup w.registry s.process_name = none)
    (hc : w.fs (helperPath w) = some c) :
    ∃ w1 w2, s.create w = (Except.ok (), w1) ∧
      s.delete w1 = (Except.ok (), w2) ∧
      alookup w2.registry s.process_name = none := by
  have hcr := create_ok_eq s w c hf hfree hc
  have hsome : alookup (createdWorld s w c).registry s.process_name =
      some (createdEntry s c) :=
    alookup_append_singleton w.registry s.process_name (createdEntry s c) hfree
  have hst : (createdEntry s c).state ≠ ServiceState.Stopped := by
    simp [createdEntry]
  have hdel := delete_notstopped_eq s (createdWorld s w c) (createdEntry s c)
    rfl hsome hst
  exact ⟨_, _, hcr, hdel, alookup_removeReg_self _ _⟩

/-- Witness for C1 at a concrete fault-free world and descriptor. -/
theorem C1_witness :
    w0.faults = [] ∧ alookup w0.registry descA.process_name = none ∧
    w0.fs (helperPath w0) =
      some "C:/sombra/executables/sombra-windows-service.exe" ∧
    (∃ w1 w2, descA.create w0 = (Except.ok (), w1) ∧
      descA.delete w1 = (Except.ok (), w2) ∧
      alookup w2.registry descA.process_name = none) :=
  ⟨rfl, rfl, rfl, C1_create_delete_roundtrip descA w0 _ rfl rfl rfl⟩

/-- C2: at most one live registration per name — if `create` succeeds for a
descriptor with name `N`, a second `create` for any descriptor with the same
name `N` (before the first is deleted) fails, returning the platform
registration error verbatim, and the existing registry entry is not
overwritten. -/
theorem C2_second_create_fails (s s2 : SombraWindows) (w w1 : World)
    (hf : w.faults = [])
    (hok : s.create w = (Except.ok (), w1))
    (hname : s2.process_name = s.process_name) :
    (s2.create w1).1 = Except.error serviceExistsErr ∧
    (s2.create w1).2.registry = w1.registry := by
  obtain ⟨c, hc, hfree, hw1⟩ := create_ok_inv s w w1 hf hok
  subst hw1
  have hsome : alookup (createdWorld s w c).registry s2.process_name =
      some (createdEntry s c) := by
    rw [hname]
    exact alookup_append_singleton w.registry s.process_name
      (createdEntry s c) hfree
  have hc1 : (createdWorld s w c).fs (helperPath (createdWorld s w c)) =
      some c := by
    rw [helperPath_createdWorld]
    exact hc
  have h2 := create_exists_eq s2 (createdWorld s w c) c (createdEntry s c)
    rfl hc1 hsome
  rw [h2]
  exact ⟨rfl, rfl⟩

/-- Witness for C2: a second create under the same name `tcp_echo` fails
with the verbatim platform error and the entry is left as it was. -/
theorem C2_witness :
    w0.faults = [] ∧
    descA.create w0 = (Except.ok (), w1c) ∧
    descB.process_name = descA.process_name ∧
    ((descB.create w1c).1 = Except.error serviceExistsErr ∧
     (descB.create w1c).2.registry = w1c.registry) :=
  ⟨rfl, rfl, rfl, C2_second_create_fails descA descB w0 w1c rfl rfl rfl⟩

/-- C3: `build(name, path, args)` canonicalizes `path` before storing it: on
success it returns a descriptor whose executable path is the canonicalized
form of `path` and whose name and argument list are stored verbatim and in
order; it fails exactly when canonicalization fails, returning an I/O-kind
error that carries the original (uncanonicalized) path string as context. -/
theorem C3_build_canonicalizes (fs : String → Option String)
    (name path : String) (args : List String) :
    (∀ c, fs path = some c →
      SombraWindows.build fs name path args =
        Except.ok { process_path := c, process_name := name
                    process_args := args }) ∧
    (fs path = none →
      SombraWindows.build fs name path args =
        Except.error (canonFailErr path)) ∧
    (canonFailErr path).kind = ErrorKind.Io ∧
    (canonFailErr path).content = some path := by
  refine ⟨?_, ?_, rfl, rfl⟩
  · intro c hc
    simp [SombraWindows.build, dunceCanonicalize, hc]
  · intro hc
    simp [SombraWindows.build, dunceCanonicalize, hc]

/-- Witness for C3 at a resolvable and an unresolvable concrete path. -/
theorem C3_witness :
    (fsA "C:/apps/echo.exe" = some "C:/apps/echo.exe" ∧
     SombraWindows.build fsA "tcp_echo" "C:/apps/echo.exe" ["-p"] =
       Except.ok { process_path := "C:/apps/echo.exe"
                   process_name := "tcp_echo", process_args := ["-p"] }) ∧
    (fsA "missing.exe" = none ∧
     SombraWindows.build fsA "x" "missing.exe" [] =
       Except.error (canonFailErr "missing.exe")) :=
  ⟨⟨rfl, (C3_build_canonicalizes fsA "tcp_echo" "C:/apps/echo.exe" ["-p"]).1
      "C:/apps/echo.exe" rfl⟩,
   ⟨rfl, (C3_build_canonicalizes fsA "x" "missing.exe" []).2.1 rfl⟩⟩

/-- C4: `create` submits a registration record whose registry key and display
name are both the descriptor's name, with start type on-demand, error
control normal, executable path equal to the canonicalized helper location,
empty launch arguments at the record level, no dependencies, and default
(system) account; it then issues a start request whose argument list is
exactly the descriptor's canonicalized target path followed by the
descriptor's arguments, in order. -/
theorem C4_registration_record_and_start (s : SombraWindows) (w : World)
    (c : String)
    (hf : w.faults = [])
    (hfree : alookup w.registry s.process_name = none)
    (hc : w.fs (helperPath w) = some c) :
    (s.create w).2.trace = w.trace ++
      [ScmEvent.connect [ServiceManagerAccess.Connect,
         ServiceManagerAccess.CreateService],
       ScmEvent.createService
         { name := s.process_name
           display_name := s.process_name
           service_type := ServiceType.OwnProcess
           start_type := ServiceStartType.OnDemand
           error_control := ServiceErrorControl.Normal
           executable_path := c
           launch_arguments := []
           dependencies := []
           account_name := none
           account_password := none } [ServiceAccess.ChangeConfig],
       ScmEvent.setDescription s.process_name
         ("Sombra Service Wrapper on " ++ s.process_name),
       ScmEvent.openService s.process_name [ServiceAccess.Start],
       ScmEvent.startService s.process_name
         (s.process_path :: s.process_args)] := by
  rw [create_ok_eq s w c hf hfree hc]
  rfl

/-- Witness for C4: the full request trace of a concrete successful create. -/
theorem C4_witness :
    w0.faults = [] ∧ alookup w0.registry descA.process_name = none ∧
    w0.fs (helperPath w0) =
      some "C:/sombra/executables/sombra-windows-service.exe" ∧
    (descA.create w0).2.trace = w0.trace ++
      [ScmEvent.connect [ServiceManagerAccess.Connect,
         ServiceManagerAccess.CreateService],
       ScmEvent.createService
         { name := descA.process_name
           display_name := descA.process_name
           service_type := ServiceType.OwnProcess
           start_type := ServiceStartType.OnDemand
           error_control := ServiceErrorControl.Normal
           executable_path := "C:/sombra/executables/sombra-windows-service.exe"
           launch_arguments := []
           dependencies := []
           account_name := none
           account_password := none } [ServiceAccess.ChangeConfig],
       ScmEvent.setDescription descA.process_name
         ("Sombra Service Wrapper on " ++ descA.process_name),
       ScmEvent.openService descA.process_name [ServiceAccess.Start],
       ScmEvent.startService descA.process_name
         (descA.process_path :: descA.process_args)] :=
  ⟨rfl, rfl, rfl, C4_registration_record_and_start descA w0 _ rfl rfl rfl⟩

/-- C7: `delete` on a name with no registered entry fails with a platform
error rather than succeeding as a no-op; consequently, after `create(D)`
then a successful `delete(D)`, a second `delete(D)` fails. -/
theorem C7_double_delete (s : SombraWindows) (w : World)
    (hf : w.faults = []) :
    (alookup w.registry s.process_name = none →
      (s.delete w).1 = Except.error serviceDoesNotExistErr) ∧
    (∀ w1 w2, s.create w = (Except.ok (), w1) →
      s.delete w1 = (Except.ok (), w2) →
      (s.delete w2).1 = Except.error serviceDoesNotExistErr) := by
  constructor
  · intro hnone
    rw [delete_none_eq s w hf hnone]
  · intro w1 w2 hcreate hdelete
    obtain ⟨c, hc, hfree, hw1⟩ := create_ok_inv s w w1 hf hcreate
    subst hw1
    have hsome : alookup (createdWorld s w c).registry s.process_name =
        some (createdEntry s c) :=
      alookup_append_singleton w.registry s.process_name
        (createdEntry s c) hfree
    have hst : (createdEntry s c).state ≠ ServiceState.Stopped := by
      simp [createdEntry]
    have hdel := delete_notstopped_eq s (createdWorld s w c)
      (createdEntry s c) rfl hsome hst
    rw [hdel] at hdelete
    injection hdelete with h1 h2
    subst h2
    rw [delete_none_eq s _ rfl (alookup_removeReg_self _ _)]

/-- Witness for C7: a concrete create, delete, delete-again run. -/
theorem C7_witness :
    w0.faults = [] ∧
    (descA.delete (descA.delete w1c).2).1 =
      Except.error serviceDoesNotExistErr :=
  ⟨rfl, (C7_double_delete descA w0 rfl).2 w1c (descA.delete w1c).2 rfl rfl⟩

/-- C9 (counterexample): `build` called with the empty string as name
succeeds and returns a descriptor whose `process_name` is the empty string —
refuting the claim that every successfully returned descriptor has a
non-empty name. -/
theorem C9_counterexample :
    SombraWindows.build fsA "" "C:/apps/echo.exe" [] =
      Except.ok { process_path := "C:/apps/echo.exe", process_name := ""
                  process_args := [] } ∧
    ({ process_path := "C:/apps/echo.exe", process_name := ""
       process_args := [] } : SombraWindows).process_name.length = 0 :=
  ⟨rfl, rfl⟩

/-- C9 (amended): `build` performs no validation of the name: the returned
descriptor's name is exactly the `name` argument, stored verbatim — in
particular `build` with an empty name can succeed and then yields a
descriptor with an empty name; the data model's non-emptiness requirement is
not enforced by this component. -/
theorem C9_name_stored_verbatim (fs : String → Option String)
    (name path : String) (args : List String) (d : SombraWindows)
    (h : SombraWindows.build fs name path args = Except.ok d) :
    d.process_name = name := by
  unfold SombraWindows.build dunceCanonicalize at h
  cases hc : fs path with
  | none =>
    simp only [hc] at h
    exact absurd h (by simp)
  | some c =>
    simp only [hc] at h
    injection h with h2
    rw [← h2]

/-- Witness for C9 (amended), at the empty name. -/
theorem C9_witness :
    SombraWindows.build fsA "" "C:/apps/echo.exe" [] =
      Except.ok { process_path := "C:/apps/echo.exe", process_name := ""
                  process_args := [] } ∧
    ({ process_path := "C:/apps/echo.exe", process_name := ""
       process_args := [] } : SombraWindows).process_name = "" :=
  ⟨rfl, C9_name_stored_verbatim fsA "" "C:/apps/echo.exe" [] _ rfl⟩

/-- A world whose canonicalization oracle fails on every path, with exactly
one (successful) connect round trip budgeted. -/
def wB : World :=
  { registry := [], env := [], fs := fun _ => none, faults := [false]
    trace := [] }

/-- C10: if, during `create`, canonicalization of the helper location fails
after a successful connection to the service manager, `create` returns the
error before any registration request is submitted — the trace gains only
the connect request, so `create_service` is never invoked and the registry
is unchanged, though the process-wide helper-path default may already have
been set. -/
theorem C10_canonfail_no_registration (s : SombraWindows) (w : World)
    (rest : List Bool)
    (hfl : w.faults = false :: rest)
    (hc : w.fs (helperPath w) = none) :
    (s.create w).1 = Except.error (canonFailErr (helperPath w)) ∧
    (s.create w).2.registry = w.registry ∧
    (s.create w).2.trace = w.trace ++
      [ScmEvent.connect [ServiceManagerAccess.Connect,
        ServiceManagerAccess.CreateService]] ∧
    (s.create w).2.env = envAfterCreate w := by
  rw [create_canonfail_cons_eq s w rest hfl hc]
  exact ⟨rfl, rfl, rfl, rfl⟩

/-- Witness for C10 on a concrete world whose filesystem resolves nothing. -/
theorem C10_witness :
    wB.faults = [false] ∧ wB.fs (helperPath wB) = none ∧
    ((descA.create wB).1 = Except.error (canonFailErr (helperPath wB)) ∧
     (descA.create wB).2.registry = wB.registry ∧
     (descA.create wB).2.trace = wB.trace ++
       [ScmEvent.connect [ServiceManagerAccess.Connect,
         ServiceManagerAccess.CreateService]] ∧
     (descA.create wB).2.env = envAfterCreate wB) :=
  ⟨rfl, rfl, C10_canonfail_no_registration descA wB [] rfl rfl⟩

/-- C8: in `create`, the helper executable's location is read from the
environment-style override; if unset it is set process-wide, once, to the
fixed relative default `executables/sombra-windows-service.exe` and never
overwritten when already present; the resulting value is then canonicalized
with the same failure semantics as `build` (an I/O-kind error carrying the
helper path string when canonicalization fails). -/
theorem C8_helper_path_resolution (s : SombraWindows) (w : World)
    (rest : List Bool)
    (hfl : w.faults = false :: rest) :
    (alookup w.env "SOMBRA_WINDOWS_SERVICE_PATH" = none →
      alookup (s.create w).2.env "SOMBRA_WINDOWS_SERVICE_PATH" =
        some "executables/sombra-windows-service.exe") ∧
    (∀ v, alookup w.env "SOMBRA_WINDOWS_SERVICE_PATH" = some v →
      alookup (s.create w).2.env "SOMBRA_WINDOWS_SERVICE_PATH" = some v) ∧
    (w.fs (helperPath w) = none →
      (s.create w).1 = Except.error (canonFailErr (helperPath w)) ∧
      SombraWindows.build w.fs s.process_name (helperPath w) s.process_args =
        Except.error (canonFailErr (helperPath w))) := by
  refine ⟨?_, ?_, ?_⟩
  · intro henv
    rw [create_env_eq s w rest hfl, alookup_envAfterCreate]
    simp [helperPath, henv]
  · intro v henv
    rw [create_env_eq s w rest hfl, alookup_envAfterCreate]
    simp [helperPath, henv]
  · intro hc
    rw [create_canonfail_cons_eq s w rest hfl hc]
    refine ⟨rfl, ?_⟩
    simp [SombraWindows.build, dunceCanonicalize, hc]

/-- Witness for C8 on the concrete world with an unset override and a
filesystem that resolves nothing. -/
theorem C8_witness :
    wB.faults = [false] ∧
    ((alookup wB.env "SOMBRA_WINDOWS_SERVICE_PATH" = none →
       alookup (descA.create wB).2.env "SOMBRA_WINDOWS_SERVICE_PATH" =
         some "executables/sombra-windows-service.exe") ∧
     (∀ v, alookup wB.env "SOMBRA_WINDOWS_SERVICE_PATH" = some v →
       alookup (descA.create wB).2.env "SOMBRA_WINDOWS_SERVICE_PATH" =
         some v) ∧
     (wB.fs (helperPath wB) = none →
       (descA.create wB).1 = Except.error (canonFailErr (helperPath wB)) ∧
       SombraWindows.build wB.fs descA.process_name (helperPath wB)
           descA.process_args =
         Except.error (canonFailErr (helperPath wB)))) :=
  ⟨rfl, C8_helper_path_resolution descA wB [] rfl⟩

/-- C6: `create` returns success exactly when registration, the description
update, and the start request all succeed (here with connect and open also
subject to injected faults); on a failure at any step it returns that error
without rolling back earlier successful steps — in particular a registration
created before a failed description update or failed start is left in
place. -/
theorem C6_create_success_iff_no_rollback (s : SombraWindows) (w : World)
    (c : String) (f1 f2 f3 f4 f5 : Bool) (rest : List Bool)
    (hfl : w.faults = f1 :: f2 :: f3 :: f4 :: f5 :: rest)
    (hfree : alookup w.registry s.process_name = none)
    (hc : w.fs (helperPath w) = some c) :
    ((s.create w).1 = Except.ok () ↔
      f1 = false ∧ f2 = false ∧ f3 = false ∧ f4 = false ∧ f5 = false) ∧
    (f1 = false → f2 = false →
      (alookup (s.create w).2.registry s.process_name).isSome = true) := by
  obtain ⟨reg, env, fs, faults, tr⟩ := w
  simp only at hfl hfree
  subst hfl
  simp only [helperPath] at hc
  cases henv : alookup env "SOMBRA_WINDOWS_SERVICE_PATH" with
  | some v =>
    simp only [henv] at hc
    cases f1 <;> cases f2 <;> cases f3 <;> cases f4 <;> cases f5 <;>
      simp [SombraWindows.create, createRegisterAndStart, scmConnect,
        nextFault, addTrace, envVar, envSetVar, dunceCanonicalize,
        scmCreateService, scmSetDescription, scmOpenService, scmStart,
        serviceInfoFor, henv, hc, hfree, alookup_append_singleton,
        alookup_updateReg_self, updateReg_append, updateReg_of_alookup_none,
        updateReg_cons, updateReg_nil, alookup_cons]
  | none =>
    simp only [henv] at hc
    cases f1 <;> cases f2 <;> cases f3 <;> cases f4 <;> cases f5 <;>
      simp [SombraWindows.create, createRegisterAndStart, scmConnect,
        nextFault, addTrace, envVar, envSetVar, dunceCanonicalize,
        scmCreateService, scmSetDescription, scmOpenService, scmStart,
        serviceInfoFor, henv, hc, hfree, alookup_append_singleton,
        alookup_updateReg_self, updateReg_append, updateReg_of_alookup_none,
        updateReg_cons, updateReg_nil, alookup_cons]

/-- Witness for C6: with faults injected so that only the start request
fails, `create` fails and the registration is left in the registry. -/
def wC : World :=
  { registry := [], env := [], fs := fsA
    faults := [false, false, false, false, true], trace := [] }

theorem C6_witness :
    wC.faults = [false, false, false, false, true] ∧
    alookup wC.registry descA.process_name = none ∧
    wC.fs (helperPath wC) =
      some "C:/sombra/executables/sombra-windows-service.exe" ∧
    ((((descA.create wC).1 = Except.ok ()) ↔
       (false = false ∧ false = false ∧ false = false ∧ false = false ∧
        true = false)) ∧
     (false = false → false = false →
       (alookup (descA.create wC).2.registry descA.process_name).isSome =
         true)) :=
  ⟨rfl, rfl, rfl, C6_create_success_iff_no_rollback descA wC
    "C:/sombra/executables/sombra-windows-service.exe"
    false false false false true [] rfl rfl rfl⟩

/-- C5: `delete` opens the named entry, queries its status, and only if the
state is not `Stopped` issues a stop request followed by a fixed 100 ms wait
(no stop and no wait when already `Stopped`); it then issues the delete
request, and returns success exactly when the issued requests (open, the
optional stop, delete — together with connect and query) all report
success. -/
theorem C5_delete_semantics (s : SombraWindows) (w : World) (e : ScmEntry)
    (hsome : alookup w.registry s.process_name = some e) :
    (w.faults = [] → e.state = ServiceState.Stopped →
      s.delete w = (Except.ok (),
        { registry := removeReg w.registry s.process_name
          env := w.env, fs := w.fs, faults := []
          trace := w.trace ++
            [ScmEvent.connect [ServiceManagerAccess.Connect],
             ScmEvent.openService s.process_name [ServiceAccess.QueryStatus,
               ServiceAccess.Stop, ServiceAccess.Delete],
             ScmEvent.queryStatus s.process_name,
             ScmEvent.deleteService s.process_name] })) ∧
    (w.faults = [] → e.state ≠ ServiceState.Stopped →
      s.delete w = (Except.ok (),
        { registry := removeReg w.registry s.process_name
          env := w.env, fs := w.fs, faults := []
          trace := w.trace ++
            [ScmEvent.connect [ServiceManagerAccess.Connect],
             ScmEvent.openService s.process_name [ServiceAccess.QueryStatus,
               ServiceAccess.Stop, ServiceAccess.Delete],
             ScmEvent.queryStatus s.process_name,
             ScmEvent.stopService s.process_name,
             ScmEvent.sleepMs 100,
             ScmEvent.deleteService s.process_name] })) ∧
    (∀ f1 f2 f3 f4 f5 rest, w.faults = f1 :: f2 :: f3 :: f4 :: f5 :: rest →
      ((s.delete w).1 = Except.ok () ↔
        f1 = false ∧ f2 = false ∧ f3 = false ∧
        (if e.state = ServiceState.Stopped then f4 = false
         else f4 = false ∧ f5 = false))) := by
  refine ⟨fun hf hst => delete_stopped_eq s w e hf hsome hst,
          fun hf hst => delete_notstopped_eq s w e hf hsome hst, ?_⟩
  intro f1 f2 f3 f4 f5 rest hfl
  obtain ⟨reg, env, fs, faults, tr⟩ := w
  simp only at hfl hsome
  subst hfl
  by_cases hst : e.state = ServiceState.Stopped <;>
    cases f1 <;> cases f2 <;> cases f3 <;> cases f4 <;> cases f5 <;>
    simp [SombraWindows.delete, scmConnect, scmOpenService, scmQueryStatus,
      scmStop, sleepMs, scmDelete, nextFault, addTrace, hsome, hst,
      alookup_updateReg_self, removeReg_updateReg]

/-- The entry a successful `create` of `descA` leaves in the registry. -/
def entryR : ScmEntry :=
  { info := serviceInfoFor descA
      "C:/sombra/executables/sombra-windows-service.exe"
    description := some "Sombra Service Wrapper on tcp_echo"
    state := ServiceState.Running }

/-- A world holding a running `tcp_echo` registration, with five successful
round trips budgeted. -/
def wD : World :=
  { registry := [("tcp_echo", entryR)], env := [], fs := fsA
    faults := [false, false, false, false, false], trace := [] }

/-- Witness for C5: deleting the running concrete entry succeeds, and the
success condition evaluates as the theorem states. -/
theorem C5_witness :
    alookup wD.registry descA.process_name = some entryR ∧
    wD.faults = [false, false, false, false, false] ∧
    ((descA.delete wD).1 = Except.ok () ↔
      false = false ∧ false = false ∧ false = false ∧
      (if entryR.state = ServiceState.Stopped then false = false
       else false = false ∧ false = false)) :=
  ⟨rfl, rfl, (C5_delete_semantics descA wD entryR rfl).2.2
    false false false false false [] rfl⟩
